import Mathlib

/-!
Shallow embedding of the Rampage preset store
(src/scripts/python/rampage/rampage.py) and proofs about its operations.

Modelling conventions:
* Python floats are carried opaquely by the store; they are embedded as `Rat`
  (no claim depends on floating-point arithmetic).
* A Python dict is embedded as an association list with unique keys; dict
  assignment replaces in place, deletion filters, membership is key lookup.
* The file system is a map from path to optional file content, and the
  `lru_cache` on `_read_preset_file` is a map from path to cached store.
* Host-API functions (`hou.*`) are inputs or are modelled from the spec where
  noted; everything else is translated from the source.
-/

namespace Rampage

/-- Python enum `RampType` with values `"float"` and `"color"`. -/
inductive RampType
  | FLOAT
  | COLOR
deriving DecidableEq, Repr

/-- The `.value` of the enum member, as serialized by `to_dict`. -/
def RampType.value : RampType → String
  | .FLOAT => "float"
  | .COLOR => "color"

/-- The enum call `RampType(value)`: raises `ValueError` on an unknown value. -/
def RampType.fromValue (s : String) : Except String RampType :=
  if s = "float" then .ok .FLOAT
  else if s = "color" then .ok .COLOR
  else .error (s ++ " is not a valid RampType")

/-- A ramp value: a scalar float for float ramps, a float tuple for color
ramps (`Tuple[Union[float, Tuple[float]]]` in the source). -/
inductive RampValue
  | scalar (x : Rat)
  | vec (xs : List Rat)
deriving DecidableEq, Repr

/-- The `RampPreset` object: name, ramp type and the three sequences. -/
structure RampPreset where
  name : String
  ramp_type : RampType
  basis : List String
  keys : List Rat
  values : List RampValue
deriving DecidableEq, Repr

/-- The chained comparison `len(basis) != len(keys) != len(values)` from
`RampPreset.__init__`: in Python it means
`len(basis) != len(keys) and len(keys) != len(values)`. -/
def lenChainMismatch (basis : List String) (keys : List Rat)
    (values : List RampValue) : Bool :=
  basis.length ≠ keys.length ∧ keys.length ≠ values.length

/-- `RampPreset.__init__`. The source evaluates the chained comparison and,
when it is true, constructs `ValueError("basis, keys and values must have the
same length!")` without a `raise` statement, so the exception value is
discarded and every call returns the object. -/
def RampPreset.init (name : String) (ramp_type : RampType)
    (basis : List String) (keys : List Rat) (values : List RampValue) :
    Except String RampPreset :=
  let _discardedError : Option String :=
    if lenChainMismatch basis keys values then
      some "basis, keys and values must have the same length!"
    else none
  .ok { name := name, ramp_type := ramp_type, basis := basis, keys := keys,
        values := values }

/-- One entry of the preset file: the dict produced by `RampPreset.to_dict`. -/
structure PresetDict where
  name : String
  ramp_type : String
  keys : List Rat
  values : List RampValue
  basis : List String
deriving DecidableEq, Repr

/-- `RampPreset.to_dict`. -/
def RampPreset.to_dict (p : RampPreset) : PresetDict :=
  { name := p.name, ramp_type := p.ramp_type.value, keys := p.keys,
    values := p.values, basis := p.basis }

/-- `RampPreset.from_dict`: `RampType(preset_dict["ramp_type"])` may raise,
then the constructor is called with the remaining fields. -/
def RampPreset.from_dict (d : PresetDict) : Except String RampPreset :=
  match RampType.fromValue d.ramp_type with
  | .error e => .error e
  | .ok rt => RampPreset.init d.name rt d.basis d.keys d.values

/-- A preset store: the JSON object of one preset file, a Python dict from
normalized key to preset dict (insertion ordered, unique keys). -/
abbrev Store := List (String × PresetDict)

/-- Key lookup in a store (`preset_dict[key]` / `key in preset_dict`). -/
def storeLookup : Store → String → Option PresetDict
  | [], _ => none
  | e :: t, k => if e.1 = k then some e.2 else storeLookup t k

/-- Dict assignment `d[k] = v`: replaces the entry in place when the key is
present, otherwise appends at the end (Python insertion order). -/
def storeInsert (d : Store) (k : String) (v : PresetDict) : Store :=
  if (storeLookup d k).isSome then
    d.map (fun e => if e.1 = k then (k, v) else e)
  else d ++ [(k, v)]

/-- Dict deletion `del d[k]` on a present key. -/
def storeErase (d : Store) (k : String) : Store :=
  d.filter (fun e => e.1 ≠ k)

/-- `d.pop(k)` guarded by a membership test: the popped value and the
remaining dict, or `none` when the key is absent. -/
def storePop (d : Store) (k : String) : Option (PresetDict × Store) :=
  match storeLookup d k with
  | none => none
  | some v => some (v, storeErase d k)

/-- Modelled from the spec: `hou.text.alphaNumeric` is host-application code
not present in this repository; per the spec it strips the string to
alphanumeric characters only. -/
def alphaNumeric (s : String) : String :=
  String.mk (s.toList.filter Char.isAlphanum)

/-- Python `str.lower()`, character by character. -/
def pyLower (s : String) : String :=
  String.mk (s.toList.map Char.toLower)

/-- The key normalization used at both call sites
(`hou.text.alphaNumeric(name.lower())`). -/
def normalize (name : String) : String :=
  alphaNumeric (pyLower name)

/-- Content of a file on disk: either a complete JSON serialization of a
store, or bytes left behind by an interrupted `json.dump` that do not form a
complete serialization. -/
inductive FileData
  | json (d : Store)
  | truncated
deriving DecidableEq, Repr

/-- Errors raised by the embedded operations. -/
inductive PyErr
  | fileNotFound (path : String)
  | valueError (msg : String)
  | keyError (key : String)
deriving DecidableEq, Repr

/-- Process state: the file system and the `lru_cache` of
`_read_preset_file`, keyed by file path. -/
structure SysState where
  fs : String → Option FileData
  cache : String → Option Store

/-- `open(p, "w")` followed by a completed `json.dump`/write of content `c`. -/
def writeFile (s : SysState) (p : String) (c : FileData) : SysState :=
  { s with fs := fun q => if q = p then some c else s.fs q }

/-- `os.replace(src, dst)`: atomically renames `src` over `dst`. -/
def osReplace (s : SysState) (src dst : String) : SysState :=
  { s with
    fs := fun q => if q = dst then s.fs src else if q = src then none
                   else s.fs q }

/-- `_read_preset_file.cache_clear()`: empties the whole `lru_cache`. -/
def cacheClear (s : SysState) : SysState :=
  { s with cache := fun _ => none }

/-- The temporary file name `preset_file_path + "." + _create_random_end_str(7)`;
the random suffix is taken as a parameter. -/
def tempPath (path suffix : String) : String :=
  path ++ "." ++ suffix

/-- `_get_preset_file_path_from_ramp_type`: `os.environ["RAMPAGE_PRESETS_PATH"]`
is the `presetsDir` parameter. The source dispatches on `hou.rampParmType`,
which mirrors `RampType` one for one. -/
def get_preset_file_path_from_ramp_type (presetsDir : String)
    (ramp_type : RampType) : String :=
  if ramp_type = .COLOR then presetsDir ++ "/color.json"
  else presetsDir ++ "/float.json"

/-- `_safe_save_preset_file`: dump to the suffixed temporary file, atomically
rename it over the target, then clear the read cache. -/
def safe_save_preset_file (s : SysState) (path suffix : String)
    (data : Store) : SysState :=
  cacheClear (osReplace (writeFile s (tempPath path suffix) (.json data))
    (tempPath path suffix) path)

/-- The states a crash before the `os.replace` can leave behind: nothing
written yet, the temporary file partially written, or the temporary file
fully written but not yet renamed. -/
def safe_save_interrupted_states (s : SysState) (path suffix : String)
    (data : Store) : List SysState :=
  [s,
   writeFile s (tempPath path suffix) .truncated,
   writeFile s (tempPath path suffix) (.json data)]

/-- `_read_preset_file`: served from the `lru_cache` when the path is cached;
otherwise `open` (raising `FileNotFoundError` when the file is absent),
`json.load` (raising a `ValueError` on incomplete JSON), and the result is
cached. Returns the state alongside the outcome. -/
def read_preset_file (s : SysState) (path : String) :
    SysState × Except PyErr Store :=
  match s.cache path with
  | some d => (s, .ok d)
  | none =>
    match s.fs path with
    | none => (s, .error (.fileNotFound path))
    | some .truncated => (s, .error (.valueError "Expecting value"))
    | some (.json d) =>
      ({ s with cache := fun q => if q = path then some d else s.cache q },
       .ok d)

/-- `_user_choice_selection_from_preset_list`: `hou.ui.selectFromList`
returns the tuple `choices` of selected indices into the displayed sequence
(empty on cancel); the function returns
`list(preset_data.keys())[choices[0]]`, or `None` when nothing was chosen. -/
def user_choice_selection_from_preset_list (preset_data : Store)
    (choices : List Nat) : Option String :=
  if choices.length = 0 then none
  else (preset_data.map Prod.fst)[choices.headD 0]?

/-- `remove_preset`: read the store, let the user pick a preset, delete it
(`del preset_dict[key]`, a `KeyError` on an absent key), and safe-save. The
source guard `if not key: return` fires on `None` (user cancelled) and on a
selected empty-string key, `""` being falsy in Python: both return without
writing. -/
def remove_preset (s : SysState) (presetsDir suffix : String)
    (ramp_type : RampType) (choices : List Nat) :
    SysState × Except PyErr Unit :=
  let path := get_preset_file_path_from_ramp_type presetsDir ramp_type
  match read_preset_file s path with
  | (s₁, .error e) => (s₁, .error e)
  | (s₁, .ok preset_dict) =>
    match user_choice_selection_from_preset_list preset_dict choices with
    | none => (s₁, .ok ())
    | some key =>
      if key = "" then (s₁, .ok ())
      else if (storeLookup preset_dict key).isSome then
        (safe_save_preset_file s₁ path suffix (storeErase preset_dict key),
         .ok ())
      else (s₁, .error (.keyError key))

/-- `rename_ramp_preset`: pop the entry at the old identifier (returning
`None` when it is absent), set its `name` field to the new name, and reinsert
it under the key derived from the new name. -/
def rename_ramp_preset (old_name new_name : String) (preset_dict : Store) :
    Option Store :=
  match storePop preset_dict old_name with
  | none => none
  | some (preset, rest) =>
    some (storeInsert rest (normalize new_name)
      { preset with name := new_name })

/-! ### Concrete fixtures for instance checks -/

/-- A concrete preset dict. -/
def samplePD : PresetDict :=
  { name := "Existing", ramp_type := "float", keys := [0],
    values := [.scalar 0], basis := ["linear"] }

/-- A second concrete preset dict, distinct from `samplePD`. -/
def samplePD2 : PresetDict :=
  { name := "Other", ramp_type := "float", keys := [1],
    values := [.scalar 1], basis := ["constant"] }

/-- A one-entry store. -/
def sampleStore : Store := [("existing", samplePD)]

/-- A store holding entries at both `"mypreset"` and `"renamed"`. -/
def collisionStore : Store := [("mypreset", samplePD), ("renamed", samplePD2)]

/-- A process state whose float preset file holds `sampleStore`. -/
def sampleState : SysState :=
  { fs := fun q => if q = "p/float.json" then some (.json sampleStore) else none,
    cache := fun _ => none }

/-- A process state with no files at all. -/
def emptyFsState : SysState :=
  { fs := fun _ => none, cache := fun _ => none }

/-- `sampleState` after its float preset file has been read and cached. -/
def sampleStateCached : SysState :=
  { sampleState with
    cache := fun q =>
      if q = "p/float.json" then some sampleStore else sampleState.cache q }

/-- A store whose only entry sits at the empty key — reachable, since adding
a preset whose name normalizes to nothing (e.g. `"!!!"`) stores key `""`. -/
def emptyKeyStore : Store := [("", samplePD)]

/-- A process state whose float preset file holds `emptyKeyStore`. -/
def emptyKeyState : SysState :=
  { fs := fun q =>
      if q = "p/float.json" then some (.json emptyKeyStore) else none,
    cache := fun _ => none }

/-- `emptyKeyState` after its float preset file has been read and cached. -/
def emptyKeyStateCached : SysState :=
  { emptyKeyState with
    cache := fun q =>
      if q = "p/float.json" then some emptyKeyStore
      else emptyKeyState.cache q }

/-! ### Association-list (Python dict) lemmas -/

theorem storeLookup_append (d₁ d₂ : Store) (k : String) :
    storeLookup (d₁ ++ d₂) k =
      (storeLookup d₁ k).orElse (fun _ => storeLookup d₂ k) := by
  induction d₁ with
  | nil => simp [storeLookup]
  | cons e t ih => by_cases h : e.1 = k <;> simp [storeLookup, h, ih]

theorem storeLookup_mapReplace_self (d : Store) (k : String)
    (v : PresetDict) :
    storeLookup (d.map (fun e => if e.1 = k then (k, v) else e)) k =
      (storeLookup d k).map (fun _ => v) := by
  induction d with
  | nil => rfl
  | cons e t ih => by_cases he : e.1 = k <;> simp [storeLookup, he, ih]

theorem storeLookup_mapReplace_ne (d : Store) (k k' : String)
    (v : PresetDict) (h : k' ≠ k) :
    storeLookup (d.map (fun e => if e.1 = k then (k, v) else e)) k' =
      storeLookup d k' := by
  induction d with
  | nil => rfl
  | cons e t ih =>
    by_cases he : e.1 = k
    · have h1 : k ≠ k' := fun hh => h hh.symm
      have h2 : ¬e.1 = k' := by rw [he]; exact h1
      simp [storeLookup, he, h1, h2, ih]
    · have hkk : ¬k' = k := h
      by_cases he' : e.1 = k' <;> simp [storeLookup, he, he', hkk, ih]

theorem storeLookup_insert_self (d : Store) (k : String) (v : PresetDict) :
    storeLookup (storeInsert d k v) k = some v := by
  unfold storeInsert
  by_cases h : (storeLookup d k).isSome
  · rw [if_pos h, storeLookup_mapReplace_self]
    cases hl : storeLookup d k with
    | some w => rfl
    | none => rw [hl] at h; simp at h
  · rw [if_neg h, storeLookup_append]
    simp only [Option.not_isSome_iff_eq_none] at h
    simp [h, storeLookup]

theorem storeLookup_insert_ne (d : Store) (k k' : String) (v : PresetDict)
    (h : k' ≠ k) :
    storeLookup (storeInsert d k v) k' = storeLookup d k' := by
  unfold storeInsert
  by_cases hs : (storeLookup d k).isSome
  · rw [if_pos hs, storeLookup_mapReplace_ne d k k' v h]
  · rw [if_neg hs, storeLookup_append]
    cases hl : storeLookup d k' with
    | some v' => rfl
    | none =>
      have hkk : ¬k = k' := fun hh => h hh.symm
      simp [storeLookup, hkk]

theorem storeLookup_erase_self (d : Store) (k : String) :
    storeLookup (storeErase d k) k = none := by
  induction d with
  | nil => rfl
  | cons e t ih =>
    by_cases he : e.1 = k
    · simpa [storeErase, List.filter_cons, he] using ih
    · simpa [storeErase, List.filter_cons, storeLookup, he] using ih

theorem storeLookup_erase_ne (d : Store) (k k' : String) (h : k' ≠ k) :
    storeLookup (storeErase d k) k' = storeLookup d k' := by
  induction d with
  | nil => rfl
  | cons e t ih =>
    have hkk : ¬k = k' := fun hh => h hh.symm
    by_cases he : e.1 = k
    · simpa [storeErase, List.filter_cons, storeLookup, he, hkk] using ih
    · by_cases he' : e.1 = k'
      · simp [storeErase, List.filter_cons, storeLookup, he, he', h, ih]
      · simpa [storeErase, List.filter_cons, storeLookup, he, he'] using ih

theorem storeLookup_isSome_of_mem_keys (d : Store) (k : String)
    (h : k ∈ d.map Prod.fst) : (storeLookup d k).isSome := by
  induction d with
  | nil => simp at h
  | cons e t ih =>
    simp only [List.map_cons, List.mem_cons] at h
    by_cases he : e.1 = k
    · simp [storeLookup, he]
    · rcases h with h | h
      · exact absurd h.symm he
      · simpa [storeLookup, he] using ih h

theorem user_choice_selection_isSome (d : Store) (choices : List Nat)
    (k : String)
    (h : user_choice_selection_from_preset_list d choices = some k) :
    (storeLookup d k).isSome := by
  unfold user_choice_selection_from_preset_list at h
  by_cases hc : choices.length = 0
  · simp [hc] at h
  · simp only [hc, if_neg hc] at h
    exact storeLookup_isSome_of_mem_keys d k (List.getElem?_mem h)

theorem read_preset_file_fs (s : SysState) (p : String) :
    (read_preset_file s p).1.fs = s.fs := by
  unfold read_preset_file
  cases s.cache p with
  | some d => rfl
  | none =>
    cases hf : s.fs p with
    | none => rfl
    | some fd => cases fd <;> rfl

theorem read_preset_file_of_fs (s : SysState) (p : String) (d : Store)
    (hc : s.cache p = none) (hf : s.fs p = some (.json d)) :
    read_preset_file s p =
      ({ s with cache := fun q => if q = p then some d else s.cache q },
       .ok d) := by
  unfold read_preset_file
  rw [hc, hf]

/-! ### Safe-save lemmas -/

theorem tempPath_ne (path suffix : String) : tempPath path suffix ≠ path := by
  intro h
  have hlen := congrArg String.length h
  rw [tempPath, String.length_append, String.length_append] at hlen
  have h1 : String.length "." = 1 := rfl
  omega

theorem safe_save_fs_target (s : SysState) (path suffix : String)
    (data : Store) :
    (safe_save_preset_file s path suffix data).fs path = some (.json data) := by
  simp [safe_save_preset_file, cacheClear, osReplace, writeFile]

theorem safe_save_fs_temp (s : SysState) (path suffix : String)
    (data : Store) :
    (safe_save_preset_file s path suffix data).fs (tempPath path suffix) =
      none := by
  simp [safe_save_preset_file, cacheClear, osReplace, writeFile,
    tempPath_ne path suffix]

theorem safe_save_cache (s : SysState) (path suffix : String) (data : Store)
    (q : String) :
    (safe_save_preset_file s path suffix data).cache q = none := rfl

theorem read_after_safe_save (s : SysState) (path suffix : String)
    (data : Store) :
    (read_preset_file (safe_save_preset_file s path suffix data) path).2 =
      .ok data := by
  unfold read_preset_file
  rw [safe_save_cache s path suffix data path]
  rw [safe_save_fs_target s path suffix data]

/-! ### Claim theorems -/

/-- C1: the spec claims constructing a `RampPreset` with mismatched `basis`,
`keys`, `values` lengths raises a `ValueError`.  The source checks the
chained comparison `len(basis) != len(keys) != len(values)` and constructs
the `ValueError` without raising it, so `__init__` always returns an object:
with `basis` of length 2, `keys` of length 1 and `values` of length 0 the
check is even true, yet the object is produced, violating the invariant.
With lengths 1, 1, 2 the lengths differ but the chained comparison is
already false. -/
theorem rampPreset_init_mismatch_not_raised :
    lenChainMismatch ["linear", "linear"] [0] [] = true ∧
    RampPreset.init "x" RampType.FLOAT ["linear", "linear"] [0] [] =
      .ok { name := "x", ramp_type := .FLOAT, basis := ["linear", "linear"],
            keys := [0], values := [] } ∧
    lenChainMismatch ["linear"] [0] [.scalar 0, .scalar 1] = false := by
  refine ⟨by decide, rfl, by decide⟩

/-- C3: the store key is the lower-cased name stripped to alphanumeric
characters (`hou.text.alphaNumeric(name.lower())`, the stripping modelled
from the spec); `"My Preset!"` and `"my preset"` both derive `"mypreset"`. -/
theorem normalize_examples :
    normalize "My Preset!" = "mypreset" ∧
    normalize "my preset" = "mypreset" := by
  constructor <;> decide

/-- C10: `RampPreset.from_dict(p.to_dict())` recovers `p` on all five
fields, for every preset whose `ramp_type` is a `RampType` value. -/
theorem from_dict_to_dict_roundtrip (p : RampPreset) :
    RampPreset.from_dict p.to_dict = .ok p := by
  cases p with
  | mk name rt basis keys values => cases rt <;> rfl

/-- C4 counterexample: with no file on disk, `_read_preset_file` raises
`FileNotFoundError` and creates nothing — it does not write an empty seed
file, does not return an empty mapping, and the file is still absent
afterwards. -/
theorem read_absent_file_raises :
    read_preset_file emptyFsState "dir/float.json" =
      (emptyFsState, .error (.fileNotFound "dir/float.json")) ∧
    (read_preset_file emptyFsState "dir/float.json").1.fs "dir/float.json" =
      none := ⟨rfl, rfl⟩

/-- C4 amended: for every ramp kind, when the store file is absent (and not
cached), load propagates the file-not-found error and leaves the state
unchanged; no directory or empty-object seed file is created. -/
theorem read_absent_file_raises_general (s : SysState) (presetsDir : String)
    (ramp_type : RampType)
    (hc : s.cache (get_preset_file_path_from_ramp_type presetsDir ramp_type)
      = none)
    (hf : s.fs (get_preset_file_path_from_ramp_type presetsDir ramp_type)
      = none) :
    read_preset_file s (get_preset_file_path_from_ramp_type presetsDir
        ramp_type) =
      (s, .error (.fileNotFound (get_preset_file_path_from_ramp_type
        presetsDir ramp_type))) := by
  unfold read_preset_file
  rw [hc, hf]

/-- C4 witness: the amended theorem at a concrete empty file system. -/
theorem read_absent_file_raises_general_witness :
    read_preset_file emptyFsState
        (get_preset_file_path_from_ramp_type "d2" .FLOAT) =
      (emptyFsState, .error (.fileNotFound (get_preset_file_path_from_ramp_type
        "d2" .FLOAT))) :=
  read_absent_file_raises_general emptyFsState "d2" .FLOAT rfl rfl

/-- C5: `_safe_save_preset_file` writes the mapping to the suffixed
temporary file (a path distinct from the target), atomically renames it over
the target — so afterwards the target holds exactly the serialized mapping
and the temporary file is gone — and clears the read cache for the target
path; in every state reachable before the rename (nothing written, the
temporary file partially written, or fully written) the target file's
content is unchanged. -/
theorem safe_save_atomic (s : SysState) (path suffix : String)
    (data : Store) :
    tempPath path suffix ≠ path ∧
    (safe_save_preset_file s path suffix data).fs path = some (.json data) ∧
    (safe_save_preset_file s path suffix data).fs (tempPath path suffix) =
      none ∧
    (safe_save_preset_file s path suffix data).cache path = none ∧
    ∀ s' ∈ safe_save_interrupted_states s path suffix data,
      s'.fs path = s.fs path := by
  refine ⟨tempPath_ne path suffix, safe_save_fs_target s path suffix data,
    safe_save_fs_temp s path suffix data, safe_save_cache s path suffix data
      path, ?_⟩
  intro s' hs'
  have hne : path ≠ tempPath path suffix := (tempPath_ne path suffix).symm
  simp only [safe_save_interrupted_states, List.mem_cons,
    List.not_mem_nil, or_false] at hs'
  rcases hs' with h | h | h <;> subst h <;> simp [writeFile, hne]

/-- C5 witness: the theorem at a concrete state, with the interruption
clause instantiated at the partially-written temporary file. -/
theorem safe_save_atomic_witness :
    (safe_save_preset_file sampleState "p/float.json" "abcdefg"
        sampleStore).fs "p/float.json" = some (.json sampleStore) ∧
    (writeFile sampleState (tempPath "p/float.json" "abcdefg")
        .truncated).fs "p/float.json" = sampleState.fs "p/float.json" :=
  ⟨(safe_save_atomic sampleState "p/float.json" "abcdefg" sampleStore).2.1,
   (safe_save_atomic sampleState "p/float.json" "abcdefg"
      sampleStore).2.2.2.2 _ (by simp [safe_save_interrupted_states])⟩

/-- C6: when the store holds an entry at the old identifier, rename pops it,
reinserts it under the key normalized from the new name with its `name`
field set to the new name and its definition (basis, keys, values,
ramp_type) unchanged; the new key is then present and, when it differs from
the new key, the old key is absent. -/
theorem rename_moves_entry (preset_dict : Store) (old_name new_name : String)
    (p : PresetDict) (h : storeLookup preset_dict old_name = some p) :
    ∃ d', rename_ramp_preset old_name new_name preset_dict = some d' ∧
      d' = storeInsert (storeErase preset_dict old_name)
        (normalize new_name)
        { name := new_name, ramp_type := p.ramp_type, keys := p.keys,
          values := p.values, basis := p.basis } ∧
      storeLookup d' (normalize new_name) =
        some { name := new_name, ramp_type := p.ramp_type, keys := p.keys,
               values := p.values, basis := p.basis } ∧
      (old_name ≠ normalize new_name → storeLookup d' old_name = none) := by
  refine ⟨_, ?_, rfl, ?_, ?_⟩
  · unfold rename_ramp_preset storePop
    rw [h]
  · exact storeLookup_insert_self _ _ _
  · intro hne
    rw [storeLookup_insert_ne _ _ _ _ hne, storeLookup_erase_self]

/-- C6 witness: renaming `"mypreset"` to `"Renamed"` in a one-entry store. -/
theorem rename_moves_entry_witness :
    ∃ d', rename_ramp_preset "mypreset" "Renamed"
        [("mypreset", samplePD)] = some d' ∧
      d' = storeInsert (storeErase [("mypreset", samplePD)] "mypreset")
        (normalize "Renamed")
        { name := "Renamed", ramp_type := samplePD.ramp_type,
          keys := samplePD.keys, values := samplePD.values,
          basis := samplePD.basis } ∧
      storeLookup d' (normalize "Renamed") =
        some { name := "Renamed", ramp_type := samplePD.ramp_type,
               keys := samplePD.keys, values := samplePD.values,
               basis := samplePD.basis } ∧
      ("mypreset" ≠ normalize "Renamed" →
        storeLookup d' "mypreset" = none) :=
  rename_moves_entry [("mypreset", samplePD)] "mypreset" "Renamed" samplePD
    rfl

/-- C7: rename does not guard the new name's derived key: when distinct
entries exist at the old key and at `normalize new_name`, renaming returns
an updated mapping (no duplicate-name error) whose entry at the derived key
is the renamed old entry — the previously stored entry there is silently
overwritten. -/
theorem rename_overwrites_collision (preset_dict : Store)
    (old_key new_name : String) (p q : PresetDict)
    (hold : storeLookup preset_dict old_key = some p)
    (_hnew : storeLookup preset_dict (normalize new_name) = some q)
    (_hne : old_key ≠ normalize new_name) :
    ∃ d', rename_ramp_preset old_key new_name preset_dict = some d' ∧
      storeLookup d' (normalize new_name) =
        some { name := new_name, ramp_type := p.ramp_type, keys := p.keys,
               values := p.values, basis := p.basis } := by
  refine ⟨storeInsert (storeErase preset_dict old_key) (normalize new_name)
    { name := new_name, ramp_type := p.ramp_type, keys := p.keys,
      values := p.values, basis := p.basis },
    ?_, storeLookup_insert_self _ _ _⟩
  unfold rename_ramp_preset storePop
  rw [hold]

/-- C7 witness: `collisionStore` holds `"mypreset"` and `"renamed"`;
renaming `"mypreset"` to `"Renamed"` overwrites the `"renamed"` entry. -/
theorem rename_overwrites_collision_witness :
    ∃ d', rename_ramp_preset "mypreset" "Renamed" collisionStore =
        some d' ∧
      storeLookup d' (normalize "Renamed") =
        some { name := "Renamed", ramp_type := samplePD.ramp_type,
               keys := samplePD.keys, values := samplePD.values,
               basis := samplePD.basis } :=
  rename_overwrites_collision collisionStore "mypreset" "Renamed" samplePD
    samplePD2 rfl (by decide) (by decide)

/-- C9 counterexample: the store holds an entry at the selected key `""`,
yet `if not key: return` fires on the falsy key, so remove returns without
deleting or writing — a subsequent load still shows the key present, and
its lookup is not `none`. -/
theorem remove_empty_key_noop :
    user_choice_selection_from_preset_list emptyKeyStore [0] = some "" ∧
    storeLookup emptyKeyStore "" = some samplePD ∧
    remove_preset emptyKeyState "p" "abcdefg" RampType.FLOAT [0] =
      (emptyKeyStateCached, .ok ()) ∧
    (read_preset_file (remove_preset emptyKeyState "p" "abcdefg"
          RampType.FLOAT [0]).1 "p/float.json").2 = .ok emptyKeyStore ∧
    storeLookup emptyKeyStore "" ≠ none :=
  ⟨rfl, rfl, rfl, rfl, by decide⟩

/-- C9 amended: given that the store file loads as `data`: when the user
selects the preset at a non-empty `key`, remove succeeds and a subsequent
load of the store file yields the store without `key` (the key is absent);
when no preset is selected, or the selected key is the empty string (falsy
under the source's `if not key` guard), remove raises no exception and
performs no file write. -/
theorem remove_then_load_absent (s s₁ : SysState)
    (presetsDir suffix : String) (ramp_type : RampType)
    (choices : List Nat) (data : Store)
    (hread : read_preset_file s
        (get_preset_file_path_from_ramp_type presetsDir ramp_type) =
      (s₁, .ok data)) :
    (∀ key, user_choice_selection_from_preset_list data choices = some key →
      key ≠ "" →
      (remove_preset s presetsDir suffix ramp_type choices).2 = .ok () ∧
      (read_preset_file
          (remove_preset s presetsDir suffix ramp_type choices).1
          (get_preset_file_path_from_ramp_type presetsDir ramp_type)).2 =
        .ok (storeErase data key) ∧
      storeLookup (storeErase data key) key = none) ∧
    (user_choice_selection_from_preset_list data choices = none →
      remove_preset s presetsDir suffix ramp_type choices = (s₁, .ok ()) ∧
      (remove_preset s presetsDir suffix ramp_type choices).1.fs = s.fs) ∧
    (user_choice_selection_from_preset_list data choices = some "" →
      remove_preset s presetsDir suffix ramp_type choices = (s₁, .ok ()) ∧
      (remove_preset s presetsDir suffix ramp_type choices).1.fs = s.fs) := by
  have hfs : s₁.fs = s.fs := by
    have h := read_preset_file_fs s
      (get_preset_file_path_from_ramp_type presetsDir ramp_type)
    rw [hread] at h
    exact h
  refine ⟨?_, ?_, ?_⟩
  · intro key hsel hkey
    have hiss := user_choice_selection_isSome data choices key hsel
    have hrem : remove_preset s presetsDir suffix ramp_type choices =
        (safe_save_preset_file s₁
          (get_preset_file_path_from_ramp_type presetsDir ramp_type) suffix
          (storeErase data key), .ok ()) := by
      unfold remove_preset
      dsimp only
      rw [hread]
      dsimp only
      rw [hsel]
      dsimp only
      rw [if_neg hkey]
      rw [if_pos hiss]
    rw [hrem]
    exact ⟨rfl, read_after_safe_save s₁ _ suffix (storeErase data key),
      storeLookup_erase_self data key⟩
  · intro hnone
    have hrem : remove_preset s presetsDir suffix ramp_type choices =
        (s₁, .ok ()) := by
      unfold remove_preset
      dsimp only
      rw [hread]
      dsimp only
      rw [hnone]
    rw [hrem]
    exact ⟨rfl, hfs⟩
  · intro hempty
    have hrem : remove_preset s presetsDir suffix ramp_type choices =
        (s₁, .ok ()) := by
      unfold remove_preset
      dsimp only
      rw [hread]
      dsimp only
      rw [hempty]
      exact rfl
    rw [hrem]
    exact ⟨rfl, hfs⟩

/-- C9 witness: removing the selected non-empty `"existing"` preset makes a
later load show the key absent; with no selection the operation returns with
no error and the file system untouched. -/
theorem remove_then_load_absent_witness :
    (remove_preset sampleState "p" "abcdefg" RampType.FLOAT [0]).2 =
      .ok () ∧
    storeLookup (storeErase sampleStore "existing") "existing" = none ∧
    remove_preset sampleState "p" "abcdefg" RampType.FLOAT [] =
      (sampleStateCached, .ok ()) :=
  let H := remove_then_load_absent sampleState sampleStateCached "p"
    "abcdefg" RampType.FLOAT [0] sampleStore rfl
  let H0 := remove_then_load_absent sampleState sampleStateCached "p"
    "abcdefg" RampType.FLOAT [] sampleStore rfl
  ⟨(H.1 "existing" rfl (by decide)).1,
   (H.1 "existing" rfl (by decide)).2.2, (H0.2.1 rfl).1⟩

end Rampage
